import Mathlib

/-!
# Verification of the msal-browser TokenCache ingestion engine and
# BaseInteractionClient logout-clearing logic

Shallow embedding of:
* `TokenCache.loadExternalTokens` / `loadAccount` / `loadIdToken` /
  `loadAccessToken` / `loadRefreshToken` (token-cache ingestion), and
* `BaseInteractionClient.clearCacheOnLogout` (logout cache clearing).

TypeScript optional fields are modelled as `Option`; TypeScript truthiness
(`!x`, `x ? _ : _`, `x || y`) is modelled explicitly: an optional string is
truthy iff present and non-empty, an optional number is truthy iff present
and non-zero. Thrown `BrowserAuthError`s are modelled as `Except` errors,
one constructor per distinct `createUnableToLoadTokenError` call site.
Storage mutation is modelled by explicit state passing: every operation
returns its result *and* the storage state reached, including on failure,
so that partial writes before a thrown error are observable.
-/

/-- Truthiness of a TypeScript optional string: `undefined` and `""` are falsy. -/
def truthyStr : Option String → Bool
  | some s => s ≠ ""
  | none => false

/-- Truthiness of a TypeScript optional number: `undefined` and `0` are falsy. -/
def truthyNat : Option Nat → Bool
  | some n => n ≠ 0
  | none => false

/-- Authority type classification carried by a resolved `Authority` object. -/
inductive AuthorityType where
  | aad
  | oidc
  | adfs
deriving DecidableEq, Repr

/-- The distinct failure sites of the ingestion engine; each constructor
corresponds to one `BrowserAuthError.createUnableToLoadTokenError` call in
`TokenCache`. `missingExpiresIn` and `missingExtendedExpiresOn` are the two
failures the spec jointly calls `MissingExpiry`. -/
inductive TokenLoadError where
  /-- "Please ensure server response includes id token." -/
  | missingIdToken
  /-- "Please provide a request with an account or a request with authority." -/
  | missingAccountOrAuthority
  /-- "Please provide clientInfo in the response or options." -/
  | missingClientInfo
  /-- "Please ensure server response includes expires_in value." -/
  | missingExpiresIn
  /-- "Please provide an extendedExpiresOn value in the options." -/
  | missingExtendedExpiresOn
  /-- "Unexpected missing homeAccountId" -/
  | missingHomeAccountId
  /-- "loadExternalTokens is designed to work in browser environments only." -/
  | unsupportedEnvironment
deriving DecidableEq, Repr

/-- The spec's `MissingExpiry` failure covers both expiry-validation sites. -/
def TokenLoadError.isMissingExpiry : TokenLoadError → Bool
  | .missingExpiresIn => true
  | .missingExtendedExpiresOn => true
  | _ => false

/-- `request.account`: the account reference optionally carried by a
`SilentRequest` (`AccountInfo` from msal-common; only the fields the
ingestion engine reads). -/
structure AccountInfo where
  homeAccountId : String
  environment : String
  tenantId : String
  username : String
deriving DecidableEq, Repr

/-- `SilentRequest`: the fields `loadExternalTokens` reads. -/
structure SilentRequest where
  account : Option AccountInfo
  authority : Option String
  scopes : List String
deriving DecidableEq, Repr

/-- `ExternalTokenResponse`: the fields the ingestion engine reads. -/
structure ExternalTokenResponse where
  id_token : Option String
  client_info : Option String
  access_token : Option String
  expires_in : Option Nat
  refresh_token : Option String
deriving DecidableEq, Repr

/-- `LoadTokenOptions` from TokenCache.ts. -/
structure LoadTokenOptions where
  clientInfo : Option String
  expiresOn : Option Nat
  extendedExpiresOn : Option Nat
deriving DecidableEq, Repr

/-- Lower-casing of a string, character by character (models TypeScript
`toLowerCase` on the ASCII identifiers the cache keys are built from). -/
def strToLower (s : String) : String :=
  ⟨s.data.map Char.toLower⟩

/-- Lexicographic comparison of character lists by code point. -/
def charListLe : List Char → List Char → Bool
  | [], _ => true
  | _ :: _, [] => false
  | a :: as, b :: bs =>
    if a.toNat < b.toNat then true
    else if b.toNat < a.toNat then false
    else charListLe as bs

/-- Lexicographic order on strings, used as the stable canonical scope order. -/
def strLe (a b : String) : Bool :=
  charListLe a.data b.data

/-- `strLe` as a decidable relation for sorting. -/
def strLeProp (a b : String) : Prop :=
  strLe a b = true

instance : DecidableRel strLeProp := fun a b => instDecidableEqBool (strLe a b) true

/-- Modelled from the spec: the ID-token's realm (tenant) claim as parsed by
the protocol library's `AuthToken` (msal-common, not in src/); modelled as a
deterministic extraction from the raw token string (second dot-separated
segment, standing for the JWT payload's `tid` claim). -/
def idTokenRealm (idToken : String) : String :=
  (((idToken.splitOn ".").drop 1).head?).getD ""

/-- Account entity (msal-common `AccountEntity`, not in src/), modelled from
the spec's data model: identity claims snapshot, environment, realm; a
"full" account additionally carries the client-info-derived fields, recorded
here as `clientInfo = some _`, while a "generic" account has none. -/
structure AccountEntity where
  homeAccountId : String
  environment : String
  realm : String
  idTokenClaims : String
  clientInfo : Option String
deriving DecidableEq, Repr

/-- IdToken entity, modelled from the spec's data model. -/
structure IdTokenEntity where
  homeAccountId : String
  environment : String
  secret : String
  clientId : String
  realm : String
deriving DecidableEq, Repr

/-- AccessToken entity, modelled from the spec's data model: canonical scope
string (`target`), absolute expiry, extended expiry. -/
structure AccessTokenEntity where
  homeAccountId : String
  environment : String
  secret : String
  clientId : String
  realm : String
  target : String
  expiresOn : Nat
  extendedExpiresOn : Nat
deriving DecidableEq, Repr

/-- RefreshToken entity, modelled from the spec's data model. -/
structure RefreshTokenEntity where
  homeAccountId : String
  environment : String
  secret : String
  clientId : String
deriving DecidableEq, Repr

/-- Modelled from the spec: deterministic cache keys are lower-cased,
delimiter-joined semantic fields (Cache Key Scheme, msal-common, not in
src/). Account key fields: homeAccountId, environment, realm. -/
def accountEntityKey (e : AccountEntity) : String :=
  strToLower (String.intercalate "-" [e.homeAccountId, e.environment, e.realm])

/-- Modelled from the spec: IdToken key fields are homeAccountId,
environment, clientId, realm. -/
def idTokenEntityKey (e : IdTokenEntity) : String :=
  strToLower (String.intercalate "-" [e.homeAccountId, e.environment, e.clientId, e.realm])

/-- Modelled from the spec: AccessToken key fields are homeAccountId,
environment, clientId, realm, normalized-scope-string. -/
def accessTokenEntityKey (e : AccessTokenEntity) : String :=
  strToLower (String.intercalate "-" [e.homeAccountId, e.environment, e.clientId, e.realm, e.target])

/-- Modelled from the spec: RefreshToken key fields are homeAccountId,
environment, clientId. -/
def refreshTokenEntityKey (e : RefreshTokenEntity) : String :=
  strToLower (String.intercalate "-" [e.homeAccountId, e.environment, e.clientId])

/-- The browser cache (Storage Adapter state): one key/value table per
entity type, with key-overwrite (last-write-wins) semantics. -/
structure CacheState where
  accounts : List (String × AccountEntity)
  idTokens : List (String × IdTokenEntity)
  accessTokens : List (String × AccessTokenEntity)
  refreshTokens : List (String × RefreshTokenEntity)
deriving DecidableEq, Repr

def emptyCache : CacheState := ⟨[], [], [], []⟩

/-- Key-overwrite insertion into a key/value table. -/
def upsert {α : Type} (k : String) (v : α) (m : List (String × α)) : List (String × α) :=
  (k, v) :: m.filter (fun p => p.1 != k)

/-- Lookup in a key/value table. -/
def lookupKey {α : Type} (k : String) (m : List (String × α)) : Option α :=
  (m.find? (fun p => p.1 == k)).map Prod.snd

def CacheState.setAccount (s : CacheState) (e : AccountEntity) : CacheState :=
  { s with accounts := upsert (accountEntityKey e) e s.accounts }

def CacheState.setIdTokenCredential (s : CacheState) (e : IdTokenEntity) : CacheState :=
  { s with idTokens := upsert (idTokenEntityKey e) e s.idTokens }

def CacheState.setAccessTokenCredential (s : CacheState) (e : AccessTokenEntity) : CacheState :=
  { s with accessTokens := upsert (accessTokenEntityKey e) e s.accessTokens }

def CacheState.setRefreshTokenCredential (s : CacheState) (e : RefreshTokenEntity) : CacheState :=
  { s with refreshTokens := upsert (refreshTokenEntityKey e) e s.refreshTokens }

/-- Modelled from the spec: `AccountEntity.generateHomeAccountId` (msal-common,
not in src/) computes the home-account identity deterministically from
client-info + authority-type + parsed ID-token claims; modelled with the
client-info string standing for the already-decoded `uid.utid` pair, which
the spec calls the stable end-user+directory identifier. -/
def generateHomeAccountId (clientInfo : String) (_authorityType : AuthorityType)
    (_idToken : String) : String :=
  clientInfo

/-- Modelled from the spec: `AccountEntity.createAccount` (msal-common, not in
src/) builds a "full" account from client-info plus ID-token claims. -/
def createAccount (clientInfo homeAccountId idToken environment : String) : AccountEntity :=
  { homeAccountId := homeAccountId
    environment := environment
    realm := idTokenRealm idToken
    idTokenClaims := idToken
    clientInfo := some clientInfo }

/-- Modelled from the spec: `AccountEntity.createGenericAccount` (msal-common,
not in src/) builds a "generic" account from claims only, no client-info
fields. -/
def createGenericAccount (homeAccountId idToken environment : String) : AccountEntity :=
  { homeAccountId := homeAccountId
    environment := environment
    realm := idTokenRealm idToken
    idTokenClaims := idToken
    clientInfo := none }

/-- Modelled from the spec: scope canonicalization (msal-common `ScopeSet`,
not in src/) — deduplicated, case-insensitive, stably ordered; `printScopes`
joins the canonical form with spaces. -/
def canonicalScopes (scopes : List String) : String :=
  String.intercalate " "
    (List.insertionSort strLeProp ((scopes.map strToLower).dedup))

/-- The resolved authority object (msal-common `Authority`, not in src/):
yields environment (host+port), realm (tenant) and a type classification. -/
structure Authority where
  hostnameAndPort : String
  tenant : String
  authorityType : AuthorityType
deriving DecidableEq, Repr

/-- Modelled from the spec: resolving the authority object from the request's
authority string yields `environment` (host+port) and `realm` (tenant);
modelled as splitting the URL after the scheme into host and first path
segment. -/
def resolveAuthority (authorityUrl : String) : Authority :=
  let withoutScheme := ((authorityUrl.splitOn "://").getLast?).getD authorityUrl
  let parts := withoutScheme.splitOn "/"
  { hostnameAndPort := (parts.head?).getD ""
    tenant := ((parts.drop 1).head?).getD ""
    authorityType := .aad }

/-- The engine's construction-time data: the browser-environment flag
(computed once in the constructor from the ambient runtime) and the
configured client id. -/
structure TokenCache where
  isBrowserEnvironment : Bool
  clientId : String
deriving DecidableEq, Repr

/-- The cache record returned by a successful ingestion: account + ID token
always present, access/refresh token nullable. -/
structure CacheRecord where
  account : AccountEntity
  idToken : IdTokenEntity
  accessToken : Option AccessTokenEntity
  refreshToken : Option RefreshTokenEntity
deriving DecidableEq, Repr

/-- The `let homeAccountId` block of `loadAccount`: the request's carried id
wins when truthy; otherwise the id is derived when an authority type and a
truthy client-info are both available. -/
def resolveHomeAccountId (idToken : String) (clientInfo : Option String)
    (authorityType : Option AuthorityType) (requestHomeAccountId : Option String) :
    Option String :=
  if truthyStr requestHomeAccountId then requestHomeAccountId
  else match authorityType, clientInfo with
    | some t, some ci =>
        if ci ≠ "" then some (generateHomeAccountId ci t idToken) else none
    | _, _ => none

/-- `TokenCache.loadAccount`: resolve the home-account identity (the request's
carried id wins; otherwise derived from client-info and authority type),
build a full or generic account depending on client-info truthiness, and
persist it — but only in a browser environment. -/
def loadAccount (tc : TokenCache) (idToken : String) (environment : String)
    (clientInfo : Option String) (authorityType : Option AuthorityType)
    (requestHomeAccountId : Option String) (s : CacheState) :
    Except TokenLoadError AccountEntity × CacheState :=
  let homeAccountId : Option String :=
    resolveHomeAccountId idToken clientInfo authorityType requestHomeAccountId
  if truthyStr homeAccountId = false then
    (.error .missingHomeAccountId, s)
  else
    let hid := homeAccountId.getD ""
    let accountEntity :=
      if truthyStr clientInfo then
        createAccount (clientInfo.getD "") hid idToken environment
      else
        createGenericAccount hid idToken environment
    if tc.isBrowserEnvironment then
      (.ok accountEntity, s.setAccount accountEntity)
    else
      (.error .unsupportedEnvironment, s)

/-- `TokenCache.loadIdToken`: build the IdToken entity and persist it — only
in a browser environment. -/
def loadIdToken (tc : TokenCache) (idToken : String) (homeAccountId : String)
    (environment : String) (tenantId : String) (s : CacheState) :
    Except TokenLoadError IdTokenEntity × CacheState :=
  let idTokenEntity : IdTokenEntity :=
    { homeAccountId := homeAccountId
      environment := environment
      secret := idToken
      clientId := tc.clientId
      realm := tenantId }
  if tc.isBrowserEnvironment then
    (.ok idTokenEntity, s.setIdTokenCredential idTokenEntity)
  else
    (.error .unsupportedEnvironment, s)

/-- `TokenCache.loadAccessToken`: null without error when the response has no
access token; otherwise `expires_in` and `options.extendedExpiresOn` are
mandatory (TypeScript truthiness: 0 counts as absent); absolute expiry is
`options.expiresOn || expires_in + now`; persist only in a browser
environment. `now` models `new Date().getTime() / 1000`. -/
def loadAccessToken (tc : TokenCache) (request : SilentRequest)
    (response : ExternalTokenResponse) (homeAccountId : String)
    (environment : String) (tenantId : String) (options : LoadTokenOptions)
    (now : Nat) (s : CacheState) :
    Except TokenLoadError (Option AccessTokenEntity) × CacheState :=
  if truthyStr response.access_token = false then
    (.ok none, s)
  else if truthyNat response.expires_in = false then
    (.error .missingExpiresIn, s)
  else if truthyNat options.extendedExpiresOn = false then
    (.error .missingExtendedExpiresOn, s)
  else
    let scopes := canonicalScopes request.scopes
    let expiresOn :=
      if truthyNat options.expiresOn then options.expiresOn.getD 0
      else response.expires_in.getD 0 + now
    let extendedExpiresOn := options.extendedExpiresOn.getD 0
    let accessTokenEntity : AccessTokenEntity :=
      { homeAccountId := homeAccountId
        environment := environment
        secret := response.access_token.getD ""
        clientId := tc.clientId
        realm := tenantId
        target := scopes
        expiresOn := expiresOn
        extendedExpiresOn := extendedExpiresOn }
    if tc.isBrowserEnvironment then
      (.ok (some accessTokenEntity), s.setAccessTokenCredential accessTokenEntity)
    else
      (.error .unsupportedEnvironment, s)

/-- `TokenCache.loadRefreshToken`: null without error when the response has no
refresh token; persist only in a browser environment. -/
def loadRefreshToken (tc : TokenCache) (_request : SilentRequest)
    (response : ExternalTokenResponse) (homeAccountId : String)
    (environment : String) (s : CacheState) :
    Except TokenLoadError (Option RefreshTokenEntity) × CacheState :=
  if truthyStr response.refresh_token = false then
    (.ok none, s)
  else
    let refreshTokenEntity : RefreshTokenEntity :=
      { homeAccountId := homeAccountId
        environment := environment
        secret := response.refresh_token.getD ""
        clientId := tc.clientId }
    if tc.isBrowserEnvironment then
      (.ok (some refreshTokenEntity), s.setRefreshTokenCredential refreshTokenEntity)
    else
      (.error .unsupportedEnvironment, s)

/-- Sequencing of the entity-construction calls: a thrown error propagates
(short-circuits) together with the storage state reached so far. -/
def stepBind {α β : Type} (x : Except TokenLoadError α × CacheState)
    (f : α → CacheState → Except TokenLoadError β × CacheState) :
    Except TokenLoadError β × CacheState :=
  match x with
  | (.error e, s) => (.error e, s)
  | (.ok a, s) => f a s

theorem stepBind_ok {α β : Type} (a : α) (s : CacheState)
    (f : α → CacheState → Except TokenLoadError β × CacheState) :
    stepBind (.ok a, s) f = f a s := rfl

theorem stepBind_error {α β : Type} (e : TokenLoadError) (s : CacheState)
    (f : α → CacheState → Except TokenLoadError β × CacheState) :
    stepBind (.error e, s) f = (.error e, s) := rfl

/-- The shared entity-construction sequence of `loadExternalTokens`: each of
the three branches constructs `new CacheRecord(loadAccount…, loadIdToken…,
loadAccessToken…, loadRefreshToken…)`, evaluated left to right, with the
branch-specific environment, tenant, client-info, authority type and carried
home-account id. -/
def loadRecordSteps (tc : TokenCache) (request : SilentRequest)
    (response : ExternalTokenResponse) (options : LoadTokenOptions)
    (idToken : String) (environment : String) (tenantId : String)
    (clientInfo : Option String) (authorityType : Option AuthorityType)
    (requestHomeAccountId : Option String) (now : Nat) (s : CacheState) :
    Except TokenLoadError CacheRecord × CacheState :=
  stepBind (loadAccount tc idToken environment clientInfo authorityType requestHomeAccountId s)
    fun acct s1 =>
  stepBind (loadIdToken tc idToken acct.homeAccountId environment tenantId s1)
    fun idt s2 =>
  stepBind (loadAccessToken tc request response acct.homeAccountId environment tenantId options now s2)
    fun at_ s3 =>
  stepBind (loadRefreshToken tc request response acct.homeAccountId environment s3)
    fun rt s4 =>
  (.ok ⟨acct, idt, at_, rt⟩, s4)

/-- `TokenCache.loadExternalTokens`: validate the ID token, then dispatch on
`request.account` / `request.authority`; in the authority branch
`options.clientInfo` takes precedence over `response.client_info`. -/
def loadExternalTokens (tc : TokenCache) (request : SilentRequest)
    (response : ExternalTokenResponse) (options : LoadTokenOptions)
    (now : Nat) (s : CacheState) :
    Except TokenLoadError CacheRecord × CacheState :=
  if truthyStr response.id_token = false then
    (.error .missingIdToken, s)
  else
    let idToken := response.id_token.getD ""
    match request.account with
    | some account =>
        loadRecordSteps tc request response options idToken
          account.environment account.tenantId none none
          (some account.homeAccountId) now s
    | none =>
        if truthyStr request.authority then
          let authority := resolveAuthority (request.authority.getD "")
          if truthyStr options.clientInfo then
            loadRecordSteps tc request response options idToken
              authority.hostnameAndPort authority.tenant options.clientInfo
              (some authority.authorityType) none now s
          else if truthyStr response.client_info then
            loadRecordSteps tc request response options idToken
              authority.hostnameAndPort authority.tenant response.client_info
              (some authority.authorityType) none now s
          else
            (.error .missingClientInfo, s)
        else
          (.error .missingAccountOrAuthority, s)

/-!
## BaseInteractionClient.clearCacheOnLogout

Browser storage and the crypto keystore are modelled as one state; the
collaborators (`removeAccount`, `clear`, `clearKeystore`) may throw, which
is modelled by a behavior record saying which of them fail. Each collaborator
returns the error it raised (if any) together with the state it left behind,
and `clearCacheOnLogout` mirrors the source's try/catch structure.
-/

/-- Modelled from the spec: `AccountEntity.accountInfoIsEqual` (msal-common,
not in src/) — identity equality of two account infos; the third argument is
the claims-comparison flag, passed as `false` at this call site. A `null`
active account compares unequal. -/
def accountInfoIsEqual (a : AccountInfo) (b : Option AccountInfo)
    (_compareClaims : Bool) : Bool :=
  match b with
  | some b => a == b
  | none => false

/-- Modelled from the spec: `AccountEntity.generateAccountCacheKey`
(msal-common, not in src/) — the account's deterministic cache key,
lower-cased delimiter-joined homeAccountId, environment, realm. -/
def generateAccountCacheKey (a : AccountInfo) : String :=
  strToLower (String.intercalate "-" [a.homeAccountId, a.environment, a.tenantId])

/-- State visible to `clearCacheOnLogout`: the active-account marker, the
browser cache entries (keyed), and the crypto keystore. -/
structure LogoutState where
  activeAccount : Option AccountInfo
  entries : List (String × String)
  keystore : List String
deriving DecidableEq, Repr

/-- Which collaborator operations throw (the claim quantifies over every
behavior of the storage and crypto collaborators). -/
structure CollabBehavior where
  removeAccountFails : Bool
  clearFails : Bool
  clearKeystoreFails : Bool
deriving DecidableEq, Repr

/-- `browserStorage.removeAccount(key)`: removes the entries stored under the
given cache key; may throw, in which case the cache is untouched. Returns
the raised error (if any) and the state left behind. -/
def removeAccount (beh : CollabBehavior) (key : String) (st : LogoutState) :
    Option String × LogoutState :=
  if beh.removeAccountFails then
    (some "removeAccount failed", st)
  else
    (none, { st with entries := st.entries.filter (fun p => p.1 != key) })

/-- `browserStorage.clear()`: clears all cache items, including the
active-account marker; may throw. -/
def storageClear (beh : CollabBehavior) (st : LogoutState) :
    Option String × LogoutState :=
  if beh.clearFails then
    (some "clear failed", st)
  else
    (none, { st with entries := [], activeAccount := none })

/-- `browserCrypto.clearKeystore()`: clears stray keys from IndexedDB; may
throw. -/
def clearKeystore (beh : CollabBehavior) (st : LogoutState) :
    Option String × LogoutState :=
  if beh.clearKeystoreFails then
    (some "clearKeystore failed", st)
  else
    (none, { st with keystore := [] })

/-- `BaseInteractionClient.clearCacheOnLogout`: with an account, clear the
active-account marker when it matches, then try to remove that account's
entries by its derived cache key, swallowing a removal failure; without an
account, try to clear the whole cache and then the keystore inside a single
try/catch, swallowing any failure. The `Except` result records whether an
exception propagates to the caller (`.error`) or not (`.ok`). -/
def clearCacheOnLogout (beh : CollabBehavior) (account : Option AccountInfo)
    (st : LogoutState) : Except String LogoutState :=
  match account with
  | some acct =>
      let st1 :=
        if accountInfoIsEqual acct st.activeAccount false then
          { st with activeAccount := none }
        else st
      match removeAccount beh (generateAccountCacheKey acct) st1 with
      | (none, st2) => .ok st2
      | (some _, st2) => .ok st2
  | none =>
      match storageClear beh st with
      | (some _, st1) => .ok st1
      | (none, st1) =>
          match clearKeystore beh st1 with
          | (none, st2) => .ok st2
          | (some _, st2) => .ok st2

/-!
## Concrete fixtures used by witnesses and counterexamples
-/

/-- An engine constructed in a browser-hosted context. -/
def tcBrowser : TokenCache := ⟨true, "client-id"⟩

/-- An engine constructed outside a browser-hosted context. -/
def tcNode : TokenCache := ⟨false, "client-id"⟩

def sampleAccount : AccountInfo :=
  ⟨"uid.utid", "login.example.com", "tenant1", "user@example.com"⟩

def sampleIdToken : String := "hdr.payload.sig"

/-!
## Helper lemmas
-/

theorem lookupKey_upsert {α : Type} (k : String) (v : α) (m : List (String × α)) :
    lookupKey k (upsert k v m) = some v := by
  simp [lookupKey, upsert]

/-- Outside a browser environment `loadAccount` always fails: with
`missingHomeAccountId` when the identity cannot be resolved, with
`unsupportedEnvironment` otherwise — never with an expiry error, and the
cache is untouched. -/
theorem loadAccount_nonbrowser (tc : TokenCache) (idToken environment : String)
    (clientInfo : Option String) (authorityType : Option AuthorityType)
    (requestHomeAccountId : Option String) (s : CacheState)
    (henv : tc.isBrowserEnvironment = false) :
    loadAccount tc idToken environment clientInfo authorityType requestHomeAccountId s
        = (.error .missingHomeAccountId, s) ∨
      loadAccount tc idToken environment clientInfo authorityType requestHomeAccountId s
        = (.error .unsupportedEnvironment, s) := by
  unfold loadAccount
  rw [henv]
  simp only [Bool.false_eq_true, if_false]
  split
  · exact Or.inl rfl
  · exact Or.inr rfl

/-- Outside a browser environment the whole entity-construction sequence
fails at the account step, with `missingHomeAccountId` or
`unsupportedEnvironment`, leaving the cache untouched. -/
theorem loadRecordSteps_nonbrowser (tc : TokenCache) (request : SilentRequest)
    (response : ExternalTokenResponse) (options : LoadTokenOptions)
    (idToken environment tenantId : String) (clientInfo : Option String)
    (authorityType : Option AuthorityType) (requestHomeAccountId : Option String)
    (now : Nat) (s : CacheState)
    (henv : tc.isBrowserEnvironment = false) :
    loadRecordSteps tc request response options idToken environment tenantId
        clientInfo authorityType requestHomeAccountId now s
        = (.error .missingHomeAccountId, s) ∨
      loadRecordSteps tc request response options idToken environment tenantId
        clientInfo authorityType requestHomeAccountId now s
        = (.error .unsupportedEnvironment, s) := by
  rcases loadAccount_nonbrowser tc idToken environment clientInfo authorityType
    requestHomeAccountId s henv with h | h
  · left
    unfold loadRecordSteps
    rw [h, stepBind_error]
  · right
    unfold loadRecordSteps
    rw [h, stepBind_error]


/-!
## C1 — ordering of validation failures
-/

/-- C1 counterexample: an input whose response has an access token but no
`expires_in` (the expiry fields absent), running outside a browser context,
fails with `unsupportedEnvironment`, not with a `MissingExpiry` failure —
refuting the claim that `MissingExpiry` precedes `UnsupportedEnvironment`. -/
theorem c1_counterexample :
    loadExternalTokens tcNode ⟨some sampleAccount, none, ["user.read"]⟩
        ⟨some sampleIdToken, none, some "AT1", none, none⟩
        ⟨none, none, none⟩ 0 emptyCache
      = (.error .unsupportedEnvironment, emptyCache)
    ∧ TokenLoadError.unsupportedEnvironment.isMissingExpiry = false := by
  exact ⟨rfl, rfl⟩

/-- C1 (amended): validation failures follow the order MissingIdToken (a
non-truthy ID token masks everything else), then MissingAccountOrAuthority
(no account and non-truthy authority), then MissingClientInfo (authority
branch with neither client-info truthy); but the environment check runs
while persisting the account, before access-token expiry validation — so
outside a browser context no `MissingExpiry` failure can be raised, and
with an account carried on the request (the spec's scenario) the failure is
exactly `unsupportedEnvironment`. -/
theorem c1_amended (tc : TokenCache) (request : SilentRequest)
    (response : ExternalTokenResponse) (options : LoadTokenOptions)
    (now : Nat) (s : CacheState) :
    (truthyStr response.id_token = false →
      loadExternalTokens tc request response options now s
        = (.error .missingIdToken, s))
    ∧ (truthyStr response.id_token = true → request.account = none →
        truthyStr request.authority = false →
        loadExternalTokens tc request response options now s
          = (.error .missingAccountOrAuthority, s))
    ∧ (truthyStr response.id_token = true → request.account = none →
        truthyStr request.authority = true →
        truthyStr options.clientInfo = false → truthyStr response.client_info = false →
        loadExternalTokens tc request response options now s
          = (.error .missingClientInfo, s))
    ∧ (tc.isBrowserEnvironment = false →
        ∀ e, (loadExternalTokens tc request response options now s).1 = .error e →
          e.isMissingExpiry = false)
    ∧ (tc.isBrowserEnvironment = false →
        ∀ a, request.account = some a → a.homeAccountId ≠ "" →
        truthyStr response.id_token = true →
        loadExternalTokens tc request response options now s
          = (.error .unsupportedEnvironment, s)) := by
  refine ⟨?_, ?_, ?_, ?_, ?_⟩
  · intro h1
    simp [loadExternalTokens, h1]
  · intro h1 ha h2
    simp [loadExternalTokens, h1, ha, h2]
  · intro h1 ha h2 h3 h4
    simp [loadExternalTokens, h1, ha, h2, h3, h4]
  · intro henv e he
    unfold loadExternalTokens at he
    split at he
    · simp only [Prod.fst] at he
      cases he
      rfl
    · revert he
      split
      · intro he
        rcases loadRecordSteps_nonbrowser tc request response options _ _ _ _ _ _ now s henv
          with h | h
        · rw [h] at he
          cases he
          rfl
        · rw [h] at he
          cases he
          rfl
      · split
        · split
          · intro he
            rcases loadRecordSteps_nonbrowser tc request response options _ _ _ _ _ _ now s henv
              with h | h
            · rw [h] at he
              cases he
              rfl
            · rw [h] at he
              cases he
              rfl
          · split
            · intro he
              rcases loadRecordSteps_nonbrowser tc request response options _ _ _ _ _ _ now s henv
                with h | h
              · rw [h] at he
                cases he
                rfl
              · rw [h] at he
                cases he
                rfl
            · intro he
              simp only [Prod.fst] at he
              cases he
              rfl
        · intro he
          simp only [Prod.fst] at he
          cases he
          rfl
  · intro henv a ha hhome hidt
    unfold loadExternalTokens
    split
    · rename_i hfalse
      rw [hidt] at hfalse
      cases hfalse
    · rw [ha]
      unfold loadRecordSteps loadAccount
      rw [henv]
      have hres : truthyStr (resolveHomeAccountId (response.id_token.getD "") none none
          (some a.homeAccountId)) = true := by
        simp [resolveHomeAccountId, truthyStr, hhome]
      simp [hres, stepBind_error]

/-- C1 amended witness at a concrete input. -/
theorem c1_amended_witness :
    loadExternalTokens tcNode ⟨some sampleAccount, none, ["user.read"]⟩
        ⟨some sampleIdToken, none, some "AT1", some 3600, none⟩
        ⟨none, none, none⟩ 0 emptyCache
      = (.error .unsupportedEnvironment, emptyCache) :=
  (c1_amended tcNode ⟨some sampleAccount, none, ["user.read"]⟩
      ⟨some sampleIdToken, none, some "AT1", some 3600, none⟩
      ⟨none, none, none⟩ 0 emptyCache).2.2.2.2 rfl
    sampleAccount rfl (by decide) (by decide)

/-!
## C2 — ingestion is not atomic
-/

/-- In a browser environment, `loadAccount` called with a truthy carried
home-account id and no client-info persists and returns the generic
account. -/
theorem loadAccount_carriedId (tc : TokenCache) (idToken environment : String)
    (aHome : String) (s : CacheState)
    (henv : tc.isBrowserEnvironment = true) (hhome : aHome ≠ "") :
    loadAccount tc idToken environment none none (some aHome) s
      = (.ok (createGenericAccount aHome idToken environment),
         s.setAccount (createGenericAccount aHome idToken environment)) := by
  unfold loadAccount
  simp [resolveHomeAccountId, truthyStr, hhome, henv]

/-- C2: ingestion is not atomic — when access-token validation fails
(access token present but `expires_in` or `extendedExpiresOn` not truthy),
the failure is one of the two `MissingExpiry` errors and the Account and
IdToken entities have already been written through the storage adapter and
remain present in the final cache state. -/
theorem c2_nonatomic_ingestion (tc : TokenCache) (request : SilentRequest)
    (response : ExternalTokenResponse) (options : LoadTokenOptions)
    (now : Nat) (s : CacheState) (a : AccountInfo) (idt : String)
    (henv : tc.isBrowserEnvironment = true)
    (hacct : request.account = some a)
    (hhome : a.homeAccountId ≠ "")
    (hid : response.id_token = some idt) (hidne : idt ≠ "")
    (hat : truthyStr response.access_token = true)
    (hexp : truthyNat response.expires_in = false ∨
      truthyNat options.extendedExpiresOn = false) :
    ((loadExternalTokens tc request response options now s).1
        = .error .missingExpiresIn ∨
      (loadExternalTokens tc request response options now s).1
        = .error .missingExtendedExpiresOn)
    ∧ lookupKey (accountEntityKey (createGenericAccount a.homeAccountId idt a.environment))
        (loadExternalTokens tc request response options now s).2.accounts
        = some (createGenericAccount a.homeAccountId idt a.environment)
    ∧ lookupKey (idTokenEntityKey ⟨a.homeAccountId, a.environment, idt, tc.clientId, a.tenantId⟩)
        (loadExternalTokens tc request response options now s).2.idTokens
        = some ⟨a.homeAccountId, a.environment, idt, tc.clientId, a.tenantId⟩ := by
  have hidt : truthyStr response.id_token = true := by
    rw [hid]
    simp [truthyStr, hidne]
  have hmain : loadExternalTokens tc request response options now s
      = loadRecordSteps tc request response options idt a.environment a.tenantId
          none none (some a.homeAccountId) now s := by
    unfold loadExternalTokens
    rw [hidt, hacct, hid]
    rfl
  rw [hmain]
  unfold loadRecordSteps
  rw [loadAccount_carriedId tc idt a.environment a.homeAccountId s henv hhome]
  rcases Bool.eq_false_or_eq_true (truthyNat response.expires_in) with hei | hei
  · have hee : truthyNat options.extendedExpiresOn = false := by
      rcases hexp with h | h
      · exact absurd (h.symm.trans hei) (by decide)
      · exact h
    refine ⟨Or.inr ?_, ?_, ?_⟩ <;>
      simp [stepBind, loadIdToken, loadAccessToken, henv, hat, hei, hee,
        CacheState.setIdTokenCredential, CacheState.setAccount, createGenericAccount,
        lookupKey_upsert]
  · refine ⟨Or.inl ?_, ?_, ?_⟩ <;>
      simp [stepBind, loadIdToken, loadAccessToken, henv, hat, hei,
        CacheState.setIdTokenCredential, CacheState.setAccount, createGenericAccount,
        lookupKey_upsert]

def reqWithAccount : SilentRequest := ⟨some sampleAccount, none, ["user.read"]⟩

def respATnoExp : ExternalTokenResponse :=
  ⟨some sampleIdToken, none, some "AT1", none, none⟩

def optsEmpty : LoadTokenOptions := ⟨none, none, none⟩

/-- C2 witness at a concrete input: access token present, `expires_in`
absent, browser environment. -/
theorem c2_witness :
    ((loadExternalTokens tcBrowser reqWithAccount respATnoExp optsEmpty 0 emptyCache).1
        = .error .missingExpiresIn ∨
      (loadExternalTokens tcBrowser reqWithAccount respATnoExp optsEmpty 0 emptyCache).1
        = .error .missingExtendedExpiresOn)
    ∧ lookupKey (accountEntityKey (createGenericAccount sampleAccount.homeAccountId
          sampleIdToken sampleAccount.environment))
        (loadExternalTokens tcBrowser reqWithAccount respATnoExp optsEmpty 0 emptyCache).2.accounts
        = some (createGenericAccount sampleAccount.homeAccountId sampleIdToken
            sampleAccount.environment)
    ∧ lookupKey (idTokenEntityKey ⟨sampleAccount.homeAccountId, sampleAccount.environment,
          sampleIdToken, tcBrowser.clientId, sampleAccount.tenantId⟩)
        (loadExternalTokens tcBrowser reqWithAccount respATnoExp optsEmpty 0 emptyCache).2.idTokens
        = some ⟨sampleAccount.homeAccountId, sampleAccount.environment, sampleIdToken,
            tcBrowser.clientId, sampleAccount.tenantId⟩ :=
  c2_nonatomic_ingestion tcBrowser reqWithAccount respATnoExp optsEmpty 0 emptyCache
    sampleAccount sampleIdToken rfl rfl (by decide) rfl (by decide) (by decide)
    (Or.inl rfl)

/-!
## C3 — client-info precedence in the authority branch
-/

/-- In a browser environment, `loadAccount` called with a truthy client-info
and an authority type persists and returns the full account built on the
derived home-account id. -/
theorem loadAccount_clientInfo (tc : TokenCache) (idToken environment ci : String)
    (t : AuthorityType) (s : CacheState)
    (henv : tc.isBrowserEnvironment = true) (hci : ci ≠ "") :
    loadAccount tc idToken environment (some ci) (some t) none s
      = (.ok (createAccount ci (generateHomeAccountId ci t idToken) idToken environment),
         s.setAccount (createAccount ci (generateHomeAccountId ci t idToken) idToken environment)) := by
  unfold loadAccount
  simp [resolveHomeAccountId, truthyStr, hci, henv, generateHomeAccountId]

/-- In a browser environment `loadIdToken` persists and returns the entity. -/
theorem loadIdToken_browser (tc : TokenCache) (idToken homeAccountId environment tenantId : String)
    (s : CacheState) (henv : tc.isBrowserEnvironment = true) :
    loadIdToken tc idToken homeAccountId environment tenantId s
      = (.ok ⟨homeAccountId, environment, idToken, tc.clientId, tenantId⟩,
         s.setIdTokenCredential ⟨homeAccountId, environment, idToken, tc.clientId, tenantId⟩) := by
  unfold loadIdToken
  rw [henv]
  simp

/-- In a browser environment `loadRefreshToken` never fails. -/
theorem loadRefreshToken_ok (tc : TokenCache) (request : SilentRequest)
    (response : ExternalTokenResponse) (homeAccountId environment : String)
    (s : CacheState) (henv : tc.isBrowserEnvironment = true) :
    ∃ rt s2, loadRefreshToken tc request response homeAccountId environment s = (.ok rt, s2) := by
  unfold loadRefreshToken
  split
  · exact ⟨none, s, rfl⟩
  · refine ⟨some ⟨homeAccountId, environment, response.refresh_token.getD "", tc.clientId⟩,
      CacheState.setRefreshTokenCredential s
        ⟨homeAccountId, environment, response.refresh_token.getD "", tc.clientId⟩, ?_⟩
    simp [henv]

/-- Without an access-token string in the response, `loadAccessToken`
returns null without error and leaves the cache unchanged. -/
theorem loadAccessToken_noAT (tc : TokenCache) (request : SilentRequest)
    (response : ExternalTokenResponse) (homeAccountId environment tenantId : String)
    (options : LoadTokenOptions) (now : Nat) (s : CacheState)
    (hat : truthyStr response.access_token = false) :
    loadAccessToken tc request response homeAccountId environment tenantId options now s
      = (.ok none, s) := by
  unfold loadAccessToken
  rw [hat]
  simp

/-- In a browser environment `loadRefreshToken` returns null (response
without refresh token) or the persisted entity. -/
theorem loadRefreshToken_eq (tc : TokenCache) (request : SilentRequest)
    (response : ExternalTokenResponse) (homeAccountId environment : String)
    (s : CacheState) (henv : tc.isBrowserEnvironment = true) :
    loadRefreshToken tc request response homeAccountId environment s
      = if truthyStr response.refresh_token = false then (.ok none, s)
        else (.ok (some ⟨homeAccountId, environment, response.refresh_token.getD "", tc.clientId⟩),
          s.setRefreshTokenCredential
            ⟨homeAccountId, environment, response.refresh_token.getD "", tc.clientId⟩) := by
  unfold loadRefreshToken
  split <;> simp [henv]

/-- C3: in the authority branch, `options.clientInfo` (checked first) takes
precedence over `response.client_info` for deriving the home-account
identity; with only `response.client_info` present ingestion succeeds using
it; with neither, ingestion fails with `missingClientInfo`. -/
theorem c3_clientInfo_precedence (tc : TokenCache) (request : SilentRequest)
    (response : ExternalTokenResponse) (options : LoadTokenOptions)
    (now : Nat) (s : CacheState)
    (henv : tc.isBrowserEnvironment = true)
    (hacct : request.account = none)
    (hauth : truthyStr request.authority = true)
    (hidt : truthyStr response.id_token = true)
    (hat : truthyStr response.access_token = false) :
    (∀ ci, options.clientInfo = some ci → ci ≠ "" →
      ∃ rec, (loadExternalTokens tc request response options now s).1 = .ok rec
        ∧ rec.account = createAccount ci
            (generateHomeAccountId ci
              (resolveAuthority (request.authority.getD "")).authorityType
              (response.id_token.getD ""))
            (response.id_token.getD "")
            (resolveAuthority (request.authority.getD "")).hostnameAndPort)
    ∧ (truthyStr options.clientInfo = false →
       ∀ ci, response.client_info = some ci → ci ≠ "" →
      ∃ rec, (loadExternalTokens tc request response options now s).1 = .ok rec
        ∧ rec.account = createAccount ci
            (generateHomeAccountId ci
              (resolveAuthority (request.authority.getD "")).authorityType
              (response.id_token.getD ""))
            (response.id_token.getD "")
            (resolveAuthority (request.authority.getD "")).hostnameAndPort)
    ∧ (truthyStr options.clientInfo = false → truthyStr response.client_info = false →
        loadExternalTokens tc request response options now s
          = (.error .missingClientInfo, s)) := by
  refine ⟨?_, ?_, ?_⟩
  · intro ci hci hcine
    have hoptci : truthyStr options.clientInfo = true := by
      rw [hci]
      simp [truthyStr, hcine]
    have hciT : truthyStr (some ci) = true := by
      simp [truthyStr, hcine]
    rcases Bool.eq_false_or_eq_true (truthyStr response.refresh_token) with hrt | hrt <;>
      simp [loadExternalTokens, loadRecordSteps, hacct, hauth, hidt, hoptci, hci,
        loadAccount_clientInfo, loadIdToken_browser, loadAccessToken_noAT, loadRefreshToken_eq,
        stepBind_ok, henv, hat, hrt, hcine, hciT]
  · intro hopt ci hci hcine
    have hciT : truthyStr (some ci) = true := by
      simp [truthyStr, hcine]
    rcases Bool.eq_false_or_eq_true (truthyStr response.refresh_token) with hrt | hrt <;>
      simp [loadExternalTokens, loadRecordSteps, hacct, hauth, hidt, hopt, hci,
        loadAccount_clientInfo, loadIdToken_browser, loadAccessToken_noAT, loadRefreshToken_eq,
        stepBind_ok, henv, hat, hrt, hcine, hciT]
  · intro hopt hresp
    simp [loadExternalTokens, hacct, hauth, hidt, hopt, hresp]

def reqAuth : SilentRequest := ⟨none, some "https://login.example.com/tenant1", ["user.read"]⟩

def respCI : ExternalTokenResponse := ⟨some sampleIdToken, some "uid2.utid2", none, none, none⟩

def optsCI : LoadTokenOptions := ⟨some "uid.utid", none, none⟩

/-- C3 witness: with both `options.clientInfo` and `response.client_info`
present, the persisted account is built from `options.clientInfo`. -/
theorem c3_witness :
    ∃ rec, (loadExternalTokens tcBrowser reqAuth respCI optsCI 0 emptyCache).1 = .ok rec
      ∧ rec.account = createAccount "uid.utid"
          (generateHomeAccountId "uid.utid"
            (resolveAuthority (reqAuth.authority.getD "")).authorityType
            (respCI.id_token.getD ""))
          (respCI.id_token.getD "")
          (resolveAuthority (reqAuth.authority.getD "")).hostnameAndPort :=
  (c3_clientInfo_precedence tcBrowser reqAuth respCI optsCI 0 emptyCache rfl rfl
      (by decide) (by decide) rfl).1 "uid.utid" rfl (by decide)

/-!
## C4 — scope canonicalization
-/

theorem charListLe_total : ∀ as bs : List Char,
    charListLe as bs = true ∨ charListLe bs as = true := by
  intro as
  induction as with
  | nil => intro bs; exact Or.inl rfl
  | cons a as ih =>
    intro bs
    cases bs with
    | nil => exact Or.inr rfl
    | cons b bs =>
      rcases Nat.lt_trichotomy a.toNat b.toNat with hab | hab | hab
      · left
        simp [charListLe, hab]
      · rcases ih bs with h | h
        · left
          simp [charListLe, hab, h]
        · right
          simp [charListLe, hab.symm, h]
      · right
        simp [charListLe, hab]

theorem charListLe_trans : ∀ as bs cs : List Char,
    charListLe as bs = true → charListLe bs cs = true → charListLe as cs = true := by
  intro as
  induction as with
  | nil => intro bs cs _ _; rfl
  | cons a as ih =>
    intro bs cs h1 h2
    cases bs with
    | nil => simp [charListLe] at h1
    | cons b bs =>
      cases cs with
      | nil => simp [charListLe] at h2
      | cons c cs =>
        simp only [charListLe] at h1 h2 ⊢
        rcases Nat.lt_trichotomy a.toNat b.toNat with hab | hab | hab
        · rcases Nat.lt_trichotomy b.toNat c.toNat with hbc | hbc | hbc
          · simp [show a.toNat < c.toNat from hab.trans hbc]
          · simp [show a.toNat < c.toNat from hbc ▸ hab]
          · rw [if_neg (by omega), if_pos hbc] at h2
            cases h2
        · rcases Nat.lt_trichotomy b.toNat c.toNat with hbc | hbc | hbc
          · simp [show a.toNat < c.toNat from hab ▸ hbc]
          · rw [if_neg (by omega), if_neg (by omega)] at h1
            rw [if_neg (by omega), if_neg (by omega)] at h2
            rw [if_neg (by omega), if_neg (by omega)]
            exact ih bs cs h1 h2
          · rw [if_neg (by omega), if_pos hbc] at h2
            cases h2
        · rw [if_neg (by omega), if_pos hab] at h1
          cases h1

theorem charListLe_antisymm : ∀ as bs : List Char,
    charListLe as bs = true → charListLe bs as = true → as = bs := by
  intro as
  induction as with
  | nil =>
    intro bs h1 h2
    cases bs with
    | nil => rfl
    | cons b bs => simp [charListLe] at h2
  | cons a as ih =>
    intro bs h1 h2
    cases bs with
    | nil => simp [charListLe] at h1
    | cons b bs =>
      simp only [charListLe] at h1 h2
      rcases Nat.lt_trichotomy a.toNat b.toNat with hab | hab | hab
      · rw [if_neg (by omega), if_pos hab] at h2
        cases h2
      · rw [if_neg (by omega), if_neg (by omega)] at h1
        rw [if_neg (by omega), if_neg (by omega)] at h2
        have hchar : a = b := by
          apply Char.ext
          apply UInt32.ext
          simpa [Char.toNat, UInt32.toNat] using hab
        rw [hchar, ih bs h1 h2]
      · rw [if_neg (by omega), if_pos hab] at h1
        cases h1

instance : IsTotal String strLeProp :=
  ⟨fun a b => charListLe_total a.data b.data⟩

instance : IsTrans String strLeProp :=
  ⟨fun a b c => charListLe_trans a.data b.data c.data⟩

instance : IsAntisymm String strLeProp :=
  ⟨fun a b h1 h2 => by
    cases a
    cases b
    exact congrArg String.mk (charListLe_antisymm _ _ h1 h2)⟩

/-- Scope lists that agree up to order, case and duplicates (same lowered
members) canonicalize to the same scope string. -/
theorem canonicalScopes_invariant (xs ys : List String)
    (h : ∀ t, t ∈ xs.map strToLower ↔ t ∈ ys.map strToLower) :
    canonicalScopes xs = canonicalScopes ys := by
  unfold canonicalScopes
  congr 1
  have hperm : (xs.map strToLower).dedup.Perm (ys.map strToLower).dedup := by
    refine (List.perm_ext_iff_of_nodup (List.nodup_dedup _) (List.nodup_dedup _)).mpr ?_
    intro t
    simp only [List.mem_dedup]
    exact h t
  exact List.eq_of_perm_of_sorted
    (((List.perm_insertionSort strLeProp _).trans hperm).trans
      (List.perm_insertionSort strLeProp _).symm)
    (List.sorted_insertionSort strLeProp _)
    (List.sorted_insertionSort strLeProp _)

/-- C4: for two requested scope lists that differ only in order, case or
duplicates (same lowered members), the canonical scope string is the same
and the whole ingestion result — in particular the access-token entity's
`target` and hence its derived cache key `accessTokenEntityKey` — is
identical. -/
theorem c4_scope_canonicalization (tc : TokenCache) (acctOpt : Option AccountInfo)
    (authOpt : Option String) (xs ys : List String)
    (response : ExternalTokenResponse) (options : LoadTokenOptions)
    (now : Nat) (s : CacheState)
    (h : ∀ t, t ∈ xs.map strToLower ↔ t ∈ ys.map strToLower) :
    canonicalScopes xs = canonicalScopes ys
    ∧ loadExternalTokens tc ⟨acctOpt, authOpt, xs⟩ response options now s
        = loadExternalTokens tc ⟨acctOpt, authOpt, ys⟩ response options now s := by
  have hcs : canonicalScopes xs = canonicalScopes ys := canonicalScopes_invariant xs ys h
  refine ⟨hcs, ?_⟩
  have hAT : ∀ hAcc env ten s2,
      loadAccessToken tc ⟨acctOpt, authOpt, xs⟩ response hAcc env ten options now s2
        = loadAccessToken tc ⟨acctOpt, authOpt, ys⟩ response hAcc env ten options now s2 := by
    intro hAcc env ten s2
    unfold loadAccessToken
    simp only [hcs]
  have hRT : ∀ hAcc env s3,
      loadRefreshToken tc ⟨acctOpt, authOpt, xs⟩ response hAcc env s3
        = loadRefreshToken tc ⟨acctOpt, authOpt, ys⟩ response hAcc env s3 :=
    fun _ _ _ => rfl
  unfold loadExternalTokens loadRecordSteps
  simp only [hAT, hRT]

/-- C4 witness: two scope lists differing only in order, case and duplicates
produce the same canonical string and the same ingestion result. -/
theorem c4_witness :
    canonicalScopes ["User.Read", "openid", "USER.READ"]
      = canonicalScopes ["OPENID", "user.read"]
    ∧ loadExternalTokens tcBrowser ⟨some sampleAccount, none, ["User.Read", "openid", "USER.READ"]⟩
        respCI optsCI 0 emptyCache
      = loadExternalTokens tcBrowser ⟨some sampleAccount, none, ["OPENID", "user.read"]⟩
        respCI optsCI 0 emptyCache :=
  c4_scope_canonicalization tcBrowser (some sampleAccount) none
    ["User.Read", "openid", "USER.READ"] ["OPENID", "user.read"] respCI optsCI 0 emptyCache
    (by
      intro t
      show t ∈ ["user.read", "openid", "user.read"] ↔ t ∈ ["openid", "user.read"]
      constructor
      · intro ht
        rcases ht with _ | ⟨_, ht⟩
        · exact List.mem_cons_of_mem _ (List.mem_cons_self _ _)
        · rcases ht with _ | ⟨_, ht⟩
          · exact List.mem_cons_self _ _
          · rcases ht with _ | ⟨_, ht⟩
            · exact List.mem_cons_of_mem _ (List.mem_cons_self _ _)
            · cases ht
      · intro ht
        rcases ht with _ | ⟨_, ht⟩
        · exact List.mem_cons_of_mem _ (List.mem_cons_self _ _)
        · rcases ht with _ | ⟨_, ht⟩
          · exact List.mem_cons_self _ _
          · cases ht)

/-!
## Inversion of a successful entity-construction sequence
-/

/-- Inverting a successful `loadRecordSteps` run: each of the four loads
succeeded in sequence and the returned record collects exactly their
results. -/
theorem loadRecordSteps_ok_inv (tc : TokenCache) (request : SilentRequest)
    (response : ExternalTokenResponse) (options : LoadTokenOptions)
    (idToken environment tenantId : String) (clientInfo : Option String)
    (authorityType : Option AuthorityType) (reqHome : Option String)
    (now : Nat) (s : CacheState) (rec : CacheRecord) (sF : CacheState)
    (h : loadRecordSteps tc request response options idToken environment tenantId
        clientInfo authorityType reqHome now s = (.ok rec, sF)) :
    ∃ s1 s2 s3,
      loadAccount tc idToken environment clientInfo authorityType reqHome s
          = (.ok rec.account, s1)
      ∧ loadIdToken tc idToken rec.account.homeAccountId environment tenantId s1
          = (.ok rec.idToken, s2)
      ∧ loadAccessToken tc request response rec.account.homeAccountId environment
          tenantId options now s2 = (.ok rec.accessToken, s3)
      ∧ loadRefreshToken tc request response rec.account.homeAccountId environment s3
          = (.ok rec.refreshToken, sF) := by
  unfold loadRecordSteps at h
  rcases hA : loadAccount tc idToken environment clientInfo authorityType reqHome s
    with ⟨resA, s1⟩
  rw [hA] at h
  cases resA with
  | error e => rw [stepBind_error] at h; simp at h
  | ok acct =>
    simp only [stepBind_ok] at h
    rcases hB : loadIdToken tc idToken acct.homeAccountId environment tenantId s1
      with ⟨resB, s2⟩
    rw [hB] at h
    cases resB with
    | error e => rw [stepBind_error] at h; simp at h
    | ok idt =>
      simp only [stepBind_ok] at h
      rcases hC : loadAccessToken tc request response acct.homeAccountId environment
          tenantId options now s2 with ⟨resC, s3⟩
      rw [hC] at h
      cases resC with
      | error e => rw [stepBind_error] at h; simp at h
      | ok at_ =>
        simp only [stepBind_ok] at h
        rcases hD : loadRefreshToken tc request response acct.homeAccountId environment s3
          with ⟨resD, s4⟩
        rw [hD] at h
        cases resD with
        | error e => rw [stepBind_error] at h; simp at h
        | ok rt =>
          simp only [stepBind_ok] at h
          injection h with h1 h2
          injection h1 with h1
          subst h1
          subst h2
          exact ⟨s1, s2, s3, by simp [hA], by simp [hB], by simp [hC], by simp [hD]⟩

/-!
## C5 — full vs generic account
-/

/-- The account entity `loadAccount` builds (before the environment check):
full when client-info is truthy, generic otherwise. -/
def builtAccount (idToken environment : String) (clientInfo : Option String)
    (authorityType : Option AuthorityType) (reqHome : Option String) : AccountEntity :=
  let hid := (resolveHomeAccountId idToken clientInfo authorityType reqHome).getD ""
  if truthyStr clientInfo = true then createAccount (clientInfo.getD "") hid idToken environment
  else createGenericAccount hid idToken environment

theorem loadAccount_browser_eq (tc : TokenCache) (idToken environment : String)
    (clientInfo : Option String) (authorityType : Option AuthorityType)
    (reqHome : Option String) (s : CacheState)
    (henv : tc.isBrowserEnvironment = true)
    (hh : truthyStr (resolveHomeAccountId idToken clientInfo authorityType reqHome) = true) :
    loadAccount tc idToken environment clientInfo authorityType reqHome s
      = (.ok (builtAccount idToken environment clientInfo authorityType reqHome),
         s.setAccount (builtAccount idToken environment clientInfo authorityType reqHome)) := by
  unfold loadAccount builtAccount
  simp [hh, henv]

theorem builtAccount_clientInfo (idToken environment : String) (clientInfo : Option String)
    (authorityType : Option AuthorityType) (reqHome : Option String) :
    (builtAccount idToken environment clientInfo authorityType reqHome).clientInfo
      = if truthyStr clientInfo = true then clientInfo else none := by
  unfold builtAccount
  cases hc : truthyStr clientInfo with
  | false => simp [hc, createGenericAccount]
  | true =>
    cases clientInfo with
    | none => simp [truthyStr] at hc
    | some ci => simp [hc, createAccount]

/-- A successfully returned account entity is full exactly when the
client-info argument passed to `loadAccount` was truthy. -/
theorem loadAccount_ok_clientInfo (tc : TokenCache) (idToken environment : String)
    (clientInfo : Option String) (authorityType : Option AuthorityType)
    (reqHome : Option String) (s : CacheState) (acct : AccountEntity) (s2 : CacheState)
    (h : loadAccount tc idToken environment clientInfo authorityType reqHome s
      = (.ok acct, s2)) :
    acct.clientInfo = if truthyStr clientInfo = true then clientInfo else none := by
  cases he : tc.isBrowserEnvironment with
  | false =>
    rcases loadAccount_nonbrowser tc idToken environment clientInfo authorityType reqHome s he
      with h2 | h2 <;> rw [h2] at h <;> simp at h
  | true =>
    cases hh : truthyStr (resolveHomeAccountId idToken clientInfo authorityType reqHome) with
    | false => simp [loadAccount, hh] at h
    | true =>
      rw [loadAccount_browser_eq tc idToken environment clientInfo authorityType reqHome s he hh]
        at h
      injection h with h1 h2
      injection h1 with h1
      subst h1
      exact builtAccount_clientInfo idToken environment clientInfo authorityType reqHome

/-- C5 counterexample: a request that carries an account reference, with
client-info available both in the options and in the response, still yields
a generic account (no client-info fields) — refuting the claim that the
account is "full" whenever client-info is available on the call. -/
theorem c5_counterexample :
    (loadExternalTokens tcBrowser reqWithAccount
        ⟨some sampleIdToken, some "uid2.utid2", none, none, none⟩ optsCI 0 emptyCache).1
      = .ok { account := createGenericAccount "uid.utid" sampleIdToken "login.example.com",
              idToken := ⟨"uid.utid", "login.example.com", sampleIdToken, "client-id", "tenant1"⟩,
              accessToken := none,
              refreshToken := none }
    ∧ (createGenericAccount "uid.utid" sampleIdToken "login.example.com").clientInfo = none
    ∧ optsCI.clientInfo = some "uid.utid" :=
  ⟨rfl, rfl, rfl⟩

/-- C5 (amended): on every successful ingestion, the persisted account is
generic whenever the request carries an account reference (client-info is
not forwarded in that branch), and in the authority branch it is full,
carrying the chosen client-info (`options.clientInfo` when truthy, else
`response.client_info`). -/
theorem c5_amended (tc : TokenCache) (request : SilentRequest)
    (response : ExternalTokenResponse) (options : LoadTokenOptions)
    (now : Nat) (s : CacheState) (rec : CacheRecord) (sF : CacheState)
    (hok : loadExternalTokens tc request response options now s = (.ok rec, sF)) :
    (∀ a, request.account = some a → rec.account.clientInfo = none)
    ∧ (request.account = none → truthyStr options.clientInfo = true →
        rec.account.clientInfo = options.clientInfo)
    ∧ (request.account = none → truthyStr options.clientInfo = false →
        rec.account.clientInfo = response.client_info) := by
  refine ⟨?_, ?_, ?_⟩
  · intro a ha
    cases hidt : truthyStr response.id_token with
    | false => simp [loadExternalTokens, hidt] at hok
    | true =>
      simp only [loadExternalTokens, hidt, ha, Bool.true_eq_false, if_false] at hok
      obtain ⟨s1, s2, s3, hA, _, _, _⟩ :=
        loadRecordSteps_ok_inv _ _ _ _ _ _ _ _ _ _ _ _ _ _ hok
      have hcf := loadAccount_ok_clientInfo _ _ _ _ _ _ _ _ _ hA
      simpa [truthyStr] using hcf
  · intro ha hopt
    cases hidt : truthyStr response.id_token with
    | false => simp [loadExternalTokens, hidt] at hok
    | true =>
      cases hauth : truthyStr request.authority with
      | false => simp [loadExternalTokens, hidt, ha, hauth] at hok
      | true =>
        simp only [loadExternalTokens, hidt, ha, hauth, hopt, Bool.true_eq_false, if_false,
          if_true] at hok
        obtain ⟨s1, s2, s3, hA, _, _, _⟩ :=
          loadRecordSteps_ok_inv _ _ _ _ _ _ _ _ _ _ _ _ _ _ hok
        have hcf := loadAccount_ok_clientInfo _ _ _ _ _ _ _ _ _ hA
        simpa [hopt] using hcf
  · intro ha hopt
    cases hidt : truthyStr response.id_token with
    | false => simp [loadExternalTokens, hidt] at hok
    | true =>
      cases hauth : truthyStr request.authority with
      | false => simp [loadExternalTokens, hidt, ha, hauth] at hok
      | true =>
        cases hrc : truthyStr response.client_info with
        | false => simp [loadExternalTokens, hidt, ha, hauth, hopt, hrc] at hok
        | true =>
          simp only [loadExternalTokens, hidt, ha, hauth, hopt, hrc, Bool.true_eq_false,
            Bool.false_eq_true, if_false, if_true] at hok
          obtain ⟨s1, s2, s3, hA, _, _, _⟩ :=
            loadRecordSteps_ok_inv _ _ _ _ _ _ _ _ _ _ _ _ _ _ hok
          have hcf := loadAccount_ok_clientInfo _ _ _ _ _ _ _ _ _ hA
          simpa [hrc] using hcf

def c5recVal : CacheRecord :=
  { account := createGenericAccount "uid.utid" sampleIdToken "login.example.com"
    idToken := ⟨"uid.utid", "login.example.com", sampleIdToken, "client-id", "tenant1"⟩
    accessToken := none
    refreshToken := none }

/-- C5 amended witness at the concrete counterexample input. -/
theorem c5_amended_witness :
    (∀ a, reqWithAccount.account = some a → c5recVal.account.clientInfo = none)
    ∧ (reqWithAccount.account = none → truthyStr optsCI.clientInfo = true →
        c5recVal.account.clientInfo = optsCI.clientInfo)
    ∧ (reqWithAccount.account = none → truthyStr optsCI.clientInfo = false →
        c5recVal.account.clientInfo
          = (⟨some sampleIdToken, some "uid2.utid2", none, none, none⟩ :
              ExternalTokenResponse).client_info) :=
  c5_amended tcBrowser reqWithAccount
    ⟨some sampleIdToken, some "uid2.utid2", none, none, none⟩ optsCI 0 emptyCache
    c5recVal
    ((emptyCache.setAccount (createGenericAccount "uid.utid" sampleIdToken
        "login.example.com")).setIdTokenCredential
      ⟨"uid.utid", "login.example.com", sampleIdToken, "client-id", "tenant1"⟩)
    rfl

/-!
## C6 / C10 — expiry validation and truthiness of numeric fields
-/

/-- C6: with an access token in the response, a missing `expires_in` fails
with the first `MissingExpiry` site, a present (truthy) `expires_in` with
missing `extendedExpiresOn` fails with the second; with both present
(truthy), the entity's absolute expiry is `options.expiresOn` when that is
given (truthy) and `now + expires_in` otherwise, and the extended expiry is
taken verbatim from the options. -/
theorem c6_expiry_validation (tc : TokenCache) (request : SilentRequest)
    (response : ExternalTokenResponse) (homeAccountId environment tenantId : String)
    (options : LoadTokenOptions) (now : Nat) (s : CacheState)
    (hat : truthyStr response.access_token = true) :
    (response.expires_in = none →
      loadAccessToken tc request response homeAccountId environment tenantId options now s
        = (.error .missingExpiresIn, s))
    ∧ (truthyNat response.expires_in = true → options.extendedExpiresOn = none →
      loadAccessToken tc request response homeAccountId environment tenantId options now s
        = (.error .missingExtendedExpiresOn, s))
    ∧ (∀ e x, response.expires_in = some e → e ≠ 0 →
        options.extendedExpiresOn = some x → x ≠ 0 →
        tc.isBrowserEnvironment = true →
        ∃ ent, loadAccessToken tc request response homeAccountId environment tenantId
            options now s = (.ok (some ent), s.setAccessTokenCredential ent)
          ∧ (∀ v, options.expiresOn = some v → v ≠ 0 → ent.expiresOn = v)
          ∧ (options.expiresOn = none → ent.expiresOn = now + e)
          ∧ ent.extendedExpiresOn = x) := by
  refine ⟨?_, ?_, ?_⟩
  · intro hei
    simp [loadAccessToken, hat, hei, truthyNat]
  · intro hei hee
    have heeF : truthyNat options.extendedExpiresOn = false := by simp [hee, truthyNat]
    simp [loadAccessToken, hat, hei, heeF]
  · intro e x hei hene hee hxne henv
    have heiT : truthyNat response.expires_in = true := by simp [hei, truthyNat, hene]
    have heeT : truthyNat options.extendedExpiresOn = true := by simp [hee, truthyNat, hxne]
    refine ⟨⟨homeAccountId, environment, response.access_token.getD "", tc.clientId, tenantId,
      canonicalScopes request.scopes,
      (if truthyNat options.expiresOn = true then options.expiresOn.getD 0
        else response.expires_in.getD 0 + now),
      options.extendedExpiresOn.getD 0⟩, ?_, ?_, ?_, ?_⟩
    · simp [loadAccessToken, hat, heiT, heeT, henv]
    · intro v hv hvne
      simp [hv, truthyNat, hvne]
    · intro hv
      simp [hv, truthyNat, hei, Nat.add_comm]
    · simp [hee]

/-- C6 witness: access token present, `expires_in` absent fails with the
first MissingExpiry site. -/
theorem c6_witness :
    loadAccessToken tcBrowser reqWithAccount respATnoExp "uid.utid" "login.example.com"
        "tenant1" optsEmpty 0 emptyCache
      = (.error .missingExpiresIn, emptyCache) :=
  (c6_expiry_validation tcBrowser reqWithAccount respATnoExp "uid.utid" "login.example.com"
    "tenant1" optsEmpty 0 emptyCache (by decide)).1 rfl

/-- C10: a numeric 0 in `expires_in` or `extendedExpiresOn` is treated as
absent by the truthiness checks, so ingestion fails with the corresponding
`MissingExpiry` site even though the field is present; `options.expiresOn`
equal to 0 is likewise ignored and the expiry falls back to
`expires_in + now`. -/
theorem c10_zero_treated_absent (tc : TokenCache) (request : SilentRequest)
    (response : ExternalTokenResponse) (homeAccountId environment tenantId : String)
    (options : LoadTokenOptions) (now : Nat) (s : CacheState)
    (hat : truthyStr response.access_token = true) :
    (response.expires_in = some 0 →
      loadAccessToken tc request response homeAccountId environment tenantId options now s
        = (.error .missingExpiresIn, s))
    ∧ (truthyNat response.expires_in = true → options.extendedExpiresOn = some 0 →
      loadAccessToken tc request response homeAccountId environment tenantId options now s
        = (.error .missingExtendedExpiresOn, s))
    ∧ (∀ e x, response.expires_in = some e → e ≠ 0 →
        options.extendedExpiresOn = some x → x ≠ 0 →
        options.expiresOn = some 0 → tc.isBrowserEnvironment = true →
        ∃ ent, loadAccessToken tc request response homeAccountId environment tenantId
            options now s = (.ok (some ent), s.setAccessTokenCredential ent)
          ∧ ent.expiresOn = e + now) := by
  refine ⟨?_, ?_, ?_⟩
  · intro hei
    have heiF : truthyNat response.expires_in = false := by simp [hei, truthyNat]
    simp [loadAccessToken, hat, heiF]
  · intro hei hee
    have heeF : truthyNat options.extendedExpiresOn = false := by simp [hee, truthyNat]
    simp [loadAccessToken, hat, hei, heeF]
  · intro e x hei hene hee hxne hv henv
    have heiT : truthyNat response.expires_in = true := by simp [hei, truthyNat, hene]
    have heeT : truthyNat options.extendedExpiresOn = true := by simp [hee, truthyNat, hxne]
    have hvF : truthyNat options.expiresOn = false := by simp [hv, truthyNat]
    refine ⟨⟨homeAccountId, environment, response.access_token.getD "", tc.clientId, tenantId,
      canonicalScopes request.scopes,
      (if truthyNat options.expiresOn = true then options.expiresOn.getD 0
        else response.expires_in.getD 0 + now),
      options.extendedExpiresOn.getD 0⟩, ?_, ?_⟩
    · simp [loadAccessToken, hat, heiT, heeT, henv]
    · simp [hvF, hei]

def respATzeroExp : ExternalTokenResponse :=
  ⟨some sampleIdToken, none, some "AT1", some 0, none⟩

/-- C10 witness: `expires_in = 0` is present yet rejected as absent. -/
theorem c10_witness :
    loadAccessToken tcBrowser reqWithAccount respATzeroExp "uid.utid" "login.example.com"
        "tenant1" optsEmpty 0 emptyCache
      = (.error .missingExpiresIn, emptyCache) :=
  (c10_zero_treated_absent tcBrowser reqWithAccount respATzeroExp "uid.utid"
    "login.example.com" "tenant1" optsEmpty 0 emptyCache (by decide)).1 rfl

/-!
## C7 — absent access/refresh tokens yield null fields, no error
-/

/-- `loadAccessToken` reads only the access-token and expires-in fields of
the response. -/
theorem loadAccessToken_fields_irrel (tc : TokenCache) (request : SilentRequest)
    (r1 r2 : ExternalTokenResponse)
    (hat : r1.access_token = r2.access_token) (hei : r1.expires_in = r2.expires_in)
    (homeAccountId environment tenantId : String) (options : LoadTokenOptions)
    (now : Nat) (s : CacheState) :
    loadAccessToken tc request r1 homeAccountId environment tenantId options now s
      = loadAccessToken tc request r2 homeAccountId environment tenantId options now s := by
  unfold loadAccessToken
  rw [hat, hei]

/-- C7: an otherwise-valid ingestion whose response omits the access token
succeeds with a null `accessToken` field; omitting the refresh token yields
a null `refreshToken` field while the other record fields equal those of the
same run with a refresh token present. -/
theorem c7_absent_tokens_null (tc : TokenCache) (request : SilentRequest)
    (response : ExternalTokenResponse) (options : LoadTokenOptions)
    (now : Nat) (s : CacheState) (a : AccountInfo) (idt rt : String)
    (henv : tc.isBrowserEnvironment = true)
    (hacct : request.account = some a) (hhome : a.homeAccountId ≠ "")
    (hid : response.id_token = some idt) (hidne : idt ≠ "") :
    (response.access_token = none →
      ∃ rec sF, loadExternalTokens tc request response options now s = (.ok rec, sF)
        ∧ rec.accessToken = none)
    ∧ (response.refresh_token = none →
      ∀ rec sF rec2 sF2,
        loadExternalTokens tc request response options now s = (.ok rec, sF) →
        loadExternalTokens tc request { response with refresh_token := some rt }
            options now s = (.ok rec2, sF2) →
        rec.refreshToken = none ∧ rec.account = rec2.account
          ∧ rec.idToken = rec2.idToken ∧ rec.accessToken = rec2.accessToken) := by
  have hidt : truthyStr response.id_token = true := by
    rw [hid]
    simp [truthyStr, hidne]
  have hidtT : truthyStr (some idt) = true := by simp [truthyStr, hidne]
  constructor
  · intro hat0
    have hatF : truthyStr response.access_token = false := by simp [hat0, truthyStr]
    rcases Bool.eq_false_or_eq_true (truthyStr response.refresh_token) with hrt | hrt <;>
      simp [loadExternalTokens, loadRecordSteps, hidt, hidtT, hacct, hid,
        loadAccount_carriedId, loadIdToken_browser, loadAccessToken_noAT,
        loadRefreshToken_eq, stepBind_ok, henv, hhome, hatF, hrt]
  · intro hrt0 rec sF rec2 sF2 h1 h2
    have hrtF : truthyStr response.refresh_token = false := by simp [hrt0, truthyStr]
    simp only [loadExternalTokens] at h1 h2
    rw [hacct] at h1 h2
    simp only [hid, Option.getD_some] at h1 h2
    rw [hidtT] at h1 h2
    simp only [Bool.true_eq_false, if_false] at h1 h2
    obtain ⟨s1, s2, s3, hA1, hB1, hC1, hD1⟩ :=
      loadRecordSteps_ok_inv _ _ _ _ _ _ _ _ _ _ _ _ _ _ h1
    obtain ⟨t1, t2, t3, hA2, hB2, hC2, hD2⟩ :=
      loadRecordSteps_ok_inv _ _ _ _ _ _ _ _ _ _ _ _ _ _ h2
    have hAeq := hA1.symm.trans hA2
    injection hAeq with hAeq1 hAeq2
    injection hAeq1 with hacc
    have hB2' := hB2
    rw [← hacc, ← hAeq2] at hB2'
    have hBeq := hB1.symm.trans hB2'
    injection hBeq with hBeq1 hBeq2
    injection hBeq1 with hidtok
    have hC2' := hC2
    rw [loadAccessToken_fields_irrel tc request
        ⟨some idt, response.client_info, response.access_token, response.expires_in, some rt⟩
        response rfl rfl, ← hacc, ← hBeq2] at hC2'
    have hCeq := hC1.symm.trans hC2'
    injection hCeq with hCeq1 hCeq2
    injection hCeq1 with hatok
    have hD1' : loadRefreshToken tc request response rec.account.homeAccountId
        a.environment s3 = (.ok none, s3) := by
      rw [loadRefreshToken_eq tc request response _ _ _ henv]
      simp [hrtF]
    rw [hD1'] at hD1
    injection hD1 with hD11 hD12
    injection hD11 with hrtnone
    exact ⟨hrtnone.symm, hacc, hidtok, hatok⟩

def respNoTokens : ExternalTokenResponse := ⟨some sampleIdToken, none, none, none, none⟩

/-- C7 witness: a response without an access token ingests successfully with
a null accessToken field. -/
theorem c7_witness :
    ∃ rec sF, loadExternalTokens tcBrowser reqWithAccount respNoTokens optsEmpty 0 emptyCache
        = (.ok rec, sF) ∧ rec.accessToken = none :=
  (c7_absent_tokens_null tcBrowser reqWithAccount respNoTokens optsEmpty 0 emptyCache
    sampleAccount sampleIdToken "RT1" rfl rfl (by decide) rfl (by decide)).1 rfl

/-!
## C8 / C9 — logout cache clearing
-/

/-- C8: with an account given, the call never propagates an exception; the
active-account marker is cleared exactly when the stored active account is
identity-equal to the given one; on successful removal the account's entries
(under its derived cache key) are removed; if the removal throws, the error
is swallowed and the cache entries are left unchanged. -/
theorem c8_clear_account (beh : CollabBehavior) (acct : AccountInfo) (st : LogoutState) :
    ∃ stF, clearCacheOnLogout beh (some acct) st = .ok stF
      ∧ stF.activeAccount = (if accountInfoIsEqual acct st.activeAccount false = true then none
          else st.activeAccount)
      ∧ (beh.removeAccountFails = false →
          stF.entries = st.entries.filter (fun p => p.1 != generateAccountCacheKey acct))
      ∧ (beh.removeAccountFails = true → stF.entries = st.entries)
      ∧ stF.keystore = st.keystore := by
  cases hm : accountInfoIsEqual acct st.activeAccount false with
  | true =>
    cases hb : beh.removeAccountFails with
    | true =>
      refine ⟨⟨none, st.entries, st.keystore⟩, ?_, ?_, ?_, ?_, ?_⟩
      · simp [clearCacheOnLogout, removeAccount, hm, hb]
      · simp [hm]
      · intro h
        exact absurd h (by decide)
      · intro _
        rfl
      · rfl
    | false =>
      refine ⟨⟨none, st.entries.filter (fun p => p.1 != generateAccountCacheKey acct),
        st.keystore⟩, ?_, ?_, ?_, ?_, ?_⟩
      · simp [clearCacheOnLogout, removeAccount, hm, hb]
      · simp [hm]
      · intro _
        rfl
      · intro h
        exact absurd h (by decide)
      · rfl
  | false =>
    cases hb : beh.removeAccountFails with
    | true =>
      refine ⟨st, ?_, ?_, ?_, ?_, ?_⟩
      · simp [clearCacheOnLogout, removeAccount, hm, hb]
      · simp [hm]
      · intro h
        exact absurd h (by decide)
      · intro _
        rfl
      · rfl
    | false =>
      refine ⟨⟨st.activeAccount, st.entries.filter
          (fun p => p.1 != generateAccountCacheKey acct), st.keystore⟩,
        ?_, ?_, ?_, ?_, ?_⟩
      · simp [clearCacheOnLogout, removeAccount, hm, hb]
      · simp [hm]
      · intro _
        rfl
      · intro h
        exact absurd h (by decide)
      · rfl

/-- C9: for every behavior of the storage and crypto collaborators —
including throwing ones — `clearCacheOnLogout` completes without propagating
an exception; in the no-account case, when the collaborators succeed, it
performs the full cache clear followed by the keystore clear. -/
theorem c9_logout_never_throws (beh : CollabBehavior) (account : Option AccountInfo)
    (st : LogoutState) :
    (∃ stF, clearCacheOnLogout beh account st = .ok stF)
    ∧ (account = none → beh.clearFails = false → beh.clearKeystoreFails = false →
        clearCacheOnLogout beh account st
          = .ok { activeAccount := none, entries := [], keystore := [] }) := by
  constructor
  · cases account with
    | none =>
      unfold clearCacheOnLogout storageClear clearKeystore
      cases hc : beh.clearFails <;> cases hk : beh.clearKeystoreFails <;> simp [hc, hk]
    | some acct =>
      unfold clearCacheOnLogout removeAccount
      cases hb : beh.removeAccountFails <;> simp [hb]
  · intro ha hc hk
    subst ha
    unfold clearCacheOnLogout storageClear clearKeystore
    simp [hc, hk]

def sampleLogoutState : LogoutState :=
  ⟨some sampleAccount,
   [(generateAccountCacheKey sampleAccount, "account-entry"), ("other-key", "other-entry")],
   ["key1"]⟩

/-- C8 witness at a concrete behavior and state. -/
theorem c8_witness :
    ∃ stF, clearCacheOnLogout ⟨false, false, false⟩ (some sampleAccount) sampleLogoutState
        = .ok stF
      ∧ stF.activeAccount = (if accountInfoIsEqual sampleAccount
            sampleLogoutState.activeAccount false = true then none
          else sampleLogoutState.activeAccount)
      ∧ ((⟨false, false, false⟩ : CollabBehavior).removeAccountFails = false →
          stF.entries = sampleLogoutState.entries.filter
            (fun p => p.1 != generateAccountCacheKey sampleAccount))
      ∧ ((⟨false, false, false⟩ : CollabBehavior).removeAccountFails = true →
          stF.entries = sampleLogoutState.entries)
      ∧ stF.keystore = sampleLogoutState.keystore :=
  c8_clear_account ⟨false, false, false⟩ sampleAccount sampleLogoutState

/-- C9 witness: the storage-clear collaborator throws, yet no exception
escapes the call. -/
theorem c9_witness :
    (∃ stF, clearCacheOnLogout ⟨false, true, false⟩ none sampleLogoutState = .ok stF)
    ∧ ((none : Option AccountInfo) = none →
        (⟨false, true, false⟩ : CollabBehavior).clearFails = false →
        (⟨false, true, false⟩ : CollabBehavior).clearKeystoreFails = false →
        clearCacheOnLogout ⟨false, true, false⟩ none sampleLogoutState
          = .ok { activeAccount := none, entries := [], keystore := [] }) :=
  c9_logout_never_throws ⟨false, true, false⟩ none sampleLogoutState
